import Mathlib

set_option maxHeartbeats 1000000

/-!
Shallow embedding of the generation-and-delivery pipeline of src/app.py
(Flask application "GyanGuru").

Strings are modelled as Lean String (a structure holding a List Char); the
character-level pipeline of the filename sanitizer works on List Char.
The external generative adapters (utils/genai_utils.py, utils/audio_utils.py,
utils/image_utils.py) are parameters of the handler models: the handlers are
verified for every possible adapter behaviour.  Filesystem interaction and
adapter invocations are recorded as an explicit event trace.
-/

/-! ## Python string primitives -/

/-- The whitespace predicate of Python str.split / str.strip / str.isspace
(Py_UNICODE_ISSPACE): ASCII 0x09-0x0D, 0x1C-0x1F, space, and the Unicode
space code points. -/
def isPySpace (c : Char) : Bool :=
  let n := c.toNat
  (decide (0x09 ≤ n) && decide (n ≤ 0x0D)) ||
  (decide (0x1C ≤ n) && decide (n ≤ 0x1F)) ||
  n == 0x20 || n == 0x85 || n == 0xA0 || n == 0x1680 ||
  (decide (0x2000 ≤ n) && decide (n ≤ 0x200A)) ||
  n == 0x2028 || n == 0x2029 || n == 0x202F || n == 0x205F || n == 0x3000

/-- Characters removed from both ends by the final strip of werkzeug
secure_filename: Python str.strip with argument consisting of a dot and an
underscore. -/
def stripChar (c : Char) : Bool := c == '.' || c == '_'

/-- Python str.lstrip over a character predicate. -/
def lstrip (bad : Char → Bool) (s : List Char) : List Char := s.dropWhile bad

/-- Python str.rstrip over a character predicate. -/
def rstrip (bad : Char → Bool) (s : List Char) : List Char :=
  (s.reverse.dropWhile bad).reverse

/-- Python str.strip over a character predicate: remove matching characters
from both ends. -/
def stripEnds (bad : Char → Bool) (s : List Char) : List Char :=
  rstrip bad (lstrip bad s)

/-- Helper for pySplit: acc holds the current token reversed. -/
def pySplitAux (p : Char → Bool) : List Char → List Char → List (List Char)
  | [], acc => if acc.isEmpty then [] else [acc.reverse]
  | c :: cs, acc =>
    if p c then
      if acc.isEmpty then pySplitAux p cs [] else acc.reverse :: pySplitAux p cs []
    else
      pySplitAux p cs (c :: acc)

/-- Python str.split with no arguments: split on runs of whitespace,
discarding empty tokens. -/
def pySplit (p : Char → Bool) (s : List Char) : List (List Char) :=
  pySplitAux p s []

/-- Python sep.join over a list of strings. -/
def pyJoin (sep : List Char) : List (List Char) → List Char
  | [] => []
  | [x] => x
  | x :: xs => x ++ sep ++ pyJoin sep xs

/-! ## werkzeug secure_filename and the app sanitizer (src/app.py lines 233-241) -/

/-- The character class kept by the werkzeug regular expression that deletes
every character outside A-Z, a-z, 0-9, underscore, dot and dash. -/
def stripReChars : List Char :=
  "ABCDEFGHIJKLMNOPQRSTUVWXYZabcdefghijklmnopqrstuvwxyz0123456789_.-".data

/-- Membership in the kept character class. -/
def regexKept (c : Char) : Bool := stripReChars.contains c

/-- Python bytes round trip encode ascii with errors ignore: keep only code
points below 128. -/
def asciiOnly (s : List Char) : List Char := s.filter (fun c => decide (c.toNat < 128))

/-- Replace the POSIX path separator by a space (werkzeug replaces os.sep;
os.path.altsep is None on POSIX, so only the slash is replaced). -/
def sepToSpace (s : List Char) : List Char :=
  s.map (fun c => if c == '/' then ' ' else c)

/-- werkzeug.utils.secure_filename on POSIX, character-level model.
Pipeline: NFKD normalisation (identity on ASCII input; for arbitrary input
the later stages receive the normalised character list, over which all
theorems below quantify), encode ascii ignore, replace the separator by a
space, split on whitespace and join with underscores, delete every character
outside the kept class, then strip dots and underscores from both ends.
The Windows device-name branch is skipped since os.name is not nt. -/
def secure_filename (s : List Char) : List Char :=
  stripEnds stripChar
    ((pyJoin ['_'] (pySplit isPySpace (sepToSpace (asciiOnly s)))).filter regexKept)

/-- The allow-list literal of src/app.py line 238. -/
def allowed_chars : List Char :=
  "abcdefghijklmnopqrstuvwxyzABCDEFGHIJKLMNOPQRSTUVWXYZ0123456789-_.".data

/-- The sanitizer of src/app.py lines 233-241, character level: apply
secure_filename, then reject (empty result) unless every character is in the
allow-list. -/
def safeFilenameChars (s : List Char) : List Char :=
  let safe := secure_filename s
  if safe.all (fun c => allowed_chars.contains c) then safe else []

/-- The sanitizer of src/app.py lines 233-241 at String level. -/
def _safe_filename (s : String) : String := String.mk (safeFilenameChars s.data)

/-! ## Path-safety notion for sanitized names -/

/-- A filename is a single safe path component when it contains no separator,
is not the current-directory or parent-directory component, and is nonempty:
joining such a name to any base directory resolves to a strict child of that
directory (no escape via dot-dot, absolute paths, or separators). -/
def singleSafeComponent (s : String) : Bool :=
  !(s.data.any (fun c => c == '/')) &&
    decide (s.data ≠ ['.']) && decide (s.data ≠ ['.', '.']) && decide (s.data ≠ [])

/-- Bool form of the condition that neither end of a string is a dot or an
underscore (the characters stripped by the final step of secure_filename). -/
def goodEnds (s : String) : Bool :=
  (match s.data.head? with
   | some c => !stripChar c
   | none => true) &&
  (match s.data.getLast? with
   | some c => !stripChar c
   | none => true)

/-! ## JSON values, dictionaries, and the handler models (src/app.py lines 84-226)

The fragment of JSON values the modelled handlers and adapters exchange:
strings, numbers, booleans, null, and lists of strings (the prompt and
dependency lists).  A dictionary is an ordered association list with unique
keys, as produced by the Python dict operations the handlers use. -/

inductive JVal where
  | jstr (s : String)
  | jnum (n : Int)
  | jbool (b : Bool)
  | jnull
  | jarr (xs : List String)
deriving DecidableEq

abbrev Dict := List (String × JVal)

/-- Python dict lookup returning an optional value (d.get(k)). -/
def dget : Dict → String → Option JVal
  | [], _ => none
  | (k', v) :: rest, k => if k' = k then some v else dget rest k

/-- Python d.get(k, default). -/
def dgetD (d : Dict) (k : String) (v₀ : JVal) : JVal := (dget d k).getD v₀

/-- Python dict assignment d[k] = v: overwrite the existing binding in place,
or append a new one. -/
def dset : Dict → String → JVal → Dict
  | [], k, v => [(k, v)]
  | (k', v') :: rest, k, v =>
    if k' = k then (k, v) :: rest else (k', v') :: dset rest k v

/-- Python d.get(k, dflt) followed by use as a string: returns none when the
stored value is not a string (the subsequent attribute access would raise). -/
def pyGetStr (d : Dict) (k : String) (dflt : String) : Option String :=
  match dget d k with
  | none => some dflt
  | some (JVal.jstr s) => some s
  | some _ => none

/-- Python str.strip() at String level. -/
def pyStrip (s : String) : String := String.mk (stripEnds isPySpace s.data)

/-- request.get_json(silent=True) or {} : an absent or unparseable body, and
a parsed falsy (empty) object, are both replaced by the empty object. -/
def jsonOrEmpty : Option Dict → Dict
  | none => []
  | some d => if d.isEmpty then [] else d

/-- Directory constants of src/app.py lines 27-30 with the default
GENERATED_FOLDER (os.path.join on POSIX inserts a slash). -/
def GENERATED_FOLDER : String := "generated"

def AUDIO_DIR : String := GENERATED_FOLDER ++ "/" ++ "audio"

def IMAGE_DIR : String := GENERATED_FOLDER ++ "/" ++ "images"

def CODE_DIR : String := GENERATED_FOLDER ++ "/" ++ "code"

/-- One external side effect of a handler: an adapter invocation, an artifact
write, or the cleanup sweep.  Handlers return the exact ordered trace of the
effects they perform. -/
inductive Event where
  | evGenText (topic : String) (depth : JVal)
  | evGenCode (algorithm : String) (complexity : JVal)
  | evSaveCode (code : String) (algorithm : String) (dir : String)
  | evGenScript (topic : String) (len : JVal)
  | evGenAudio (script : JVal) (topic : String) (dir : String)
  | evCleanup (dir : String)
  | evGenPrompts (concept : String)
  | evGenImages (prompts : JVal) (concept : String) (backend : JVal) (dir : String)
deriving DecidableEq

structure HttpResponse where
  status : Nat
  body : Dict
deriving DecidableEq

/-- The uniform validation-error envelope jsonify produces. -/
def errEnvelope (msg : String) : Dict :=
  [("status", JVal.jstr "error"), ("message", JVal.jstr msg)]

/-- Handler for POST /api/generate/text (src/app.py lines 84-96).  The
adapter generate_text_explanation is a parameter; none models an uncaught
exception (a request field that is not a string). -/
def api_generate_text (gen_text : String → JVal → Dict) (body : Option Dict) :
    Option (HttpResponse × List Event) :=
  let data := jsonOrEmpty body
  match pyGetStr data "topic" "" with
  | none => none
  | some rawTopic =>
    let topic := pyStrip rawTopic
    let depth := dgetD data "depth" (JVal.jstr "Comprehensive")
    if topic = "" then
      some (⟨400, errEnvelope "Topic is required"⟩, [])
    else
      some (⟨200, gen_text topic depth⟩, [Event.evGenText topic depth])

/-- The contents of the flat code directory: filename to file content. -/
abbrev FS := List (String × String)

/-- Write a file, replacing any previous file of the same name. -/
def fsWrite (fs : FS) (name content : String) : FS :=
  (name, content) :: fs.filter (fun e => !(e.1 == name))

/-- A file of the given name exists in the directory. -/
def fsHas (fs : FS) (name : String) : Bool := fs.any (fun e => e.1 == name)

/-- Modelled from the spec: save_code_file lives in utils/code_executor.py,
which is not under src/.  Per the Artifact Store contract, it derives a
filename from the logical subject, writes the artifact into the directory,
and returns the filename together with the derived metadata (syntax-validity
flag and line count).  The derivations themselves are opaque parameters. -/
def save_code_file (deriveName : String → String) (synCheck : String → Bool)
    (lineCnt : String → Int) (code : String) (algorithm : String) (fs : FS) :
    Dict × FS :=
  let fname := deriveName algorithm
  ([("status", JVal.jstr "success"), ("filename", JVal.jstr fname),
    ("syntax_valid", JVal.jbool (synCheck code)), ("line_count", JVal.jnum (lineCnt code))],
   fsWrite fs fname code)

/-- Handler for POST /api/generate/code (src/app.py lines 99-125).  The
adapter generate_code_example and the instruction builders (utils modules
not under src/) are parameters; the filesystem argument is the code
directory contents. -/
def api_generate_code (gen_code : String → JVal → Dict)
    (deriveName : String → String) (synCheck : String → Bool) (lineCnt : String → Int)
    (colabIns : JVal → JVal → String) (localIns : JVal → JVal → String)
    (body : Option Dict) (fs : FS) : Option (HttpResponse × FS × List Event) :=
  let data := jsonOrEmpty body
  match pyGetStr data "algorithm" "" with
  | none => none
  | some rawAlg =>
    let algorithm := pyStrip rawAlg
    let complexity := dgetD data "complexity" (JVal.jstr "Detailed")
    if algorithm = "" then
      some (⟨400, errEnvelope "Algorithm name is required"⟩, fs, [])
    else
      let result := gen_code algorithm complexity
      if dget result "status" = some (JVal.jstr "success") then
        match pyGetStr result "code" "" with
        | none => none
        | some code =>
          let sr := save_code_file deriveName synCheck lineCnt code algorithm fs
          let r1 := dset result "filename" (dgetD sr.1 "filename" (JVal.jstr ""))
          let r2 := dset r1 "syntax_valid" (dgetD sr.1 "syntax_valid" (JVal.jbool false))
          let r3 := dset r2 "line_count" (dgetD sr.1 "line_count" (JVal.jnum 0))
          let deps := dgetD r3 "dependencies" (JVal.jarr [])
          let fnameV := dgetD r3 "filename" JVal.jnull
          let r4 := dset r3 "colab_instructions" (JVal.jstr (colabIns fnameV deps))
          let r5 := dset r4 "local_instructions" (JVal.jstr (localIns fnameV deps))
          some (⟨200, r5⟩, sr.2,
            [Event.evGenCode algorithm complexity, Event.evSaveCode code algorithm CODE_DIR])
      else
        some (⟨200, result⟩, fs, [Event.evGenCode algorithm complexity])

/-- Handler for POST /api/generate/audio (src/app.py lines 128-155).  The
two adapters (script generation and audio synthesis) are parameters; the
trace records the calls and the cleanup sweep in execution order. -/
def api_generate_audio (gen_script : String → JVal → Dict)
    (gen_audio : JVal → String → String → Dict) (body : Option Dict) :
    Option (HttpResponse × List Event) :=
  let data := jsonOrEmpty body
  match pyGetStr data "topic" "" with
  | none => none
  | some rawTopic =>
    let topic := pyStrip rawTopic
    let len := dgetD data "length" (JVal.jstr "Medium")
    if topic = "" then
      some (⟨400, errEnvelope "Topic is required"⟩, [])
    else
      let script_result := gen_script topic len
      if dget script_result "status" = some (JVal.jstr "success") then
        let script := dgetD script_result "script" (JVal.jstr "")
        let audio_result := gen_audio script topic AUDIO_DIR
        let r := dset (dset audio_result "script" script) "topic" (JVal.jstr topic)
        some (⟨200, r⟩,
          [Event.evGenScript topic len, Event.evGenAudio script topic AUDIO_DIR,
           Event.evCleanup AUDIO_DIR])
      else
        some (⟨500, script_result⟩, [Event.evGenScript topic len])

/-- Handler for POST /api/generate/image (src/app.py lines 158-182). -/
def api_generate_image (gen_prompts : String → Dict)
    (gen_images : JVal → String → JVal → String → Dict) (body : Option Dict) :
    Option (HttpResponse × List Event) :=
  let data := jsonOrEmpty body
  match pyGetStr data "concept" "" with
  | none => none
  | some rawConcept =>
    let concept := pyStrip rawConcept
    let backend := dgetD data "backend" (JVal.jstr "gemini")
    if concept = "" then
      some (⟨400, errEnvelope "Concept is required"⟩, [])
    else
      let prompt_result := gen_prompts concept
      if dget prompt_result "status" = some (JVal.jstr "success") then
        let prompts := dgetD prompt_result "prompts" (JVal.jarr [])
        let image_result := gen_images prompts concept backend IMAGE_DIR
        let r := dset (dset image_result "prompts" prompts) "concept" (JVal.jstr concept)
        some (⟨200, r⟩,
          [Event.evGenPrompts concept,
           Event.evGenImages prompts concept backend IMAGE_DIR])
      else
        some (⟨500, prompt_result⟩, [Event.evGenPrompts concept])

/-- Outcome of a download endpoint: reject with 400 before any filesystem
access, or serve the named file from the fixed base directory as an
attachment. -/
inductive DlResult where
  | reject400
  | serveFrom (dir : String) (name : String) (asAttachment : Bool)
deriving DecidableEq

/-- GET /download/audio/(filename) (src/app.py lines 189-195). -/
def download_audio (filename : String) : DlResult :=
  let safe := _safe_filename filename
  if safe = "" then DlResult.reject400 else DlResult.serveFrom AUDIO_DIR safe true

/-- GET /download/code/(filename) (src/app.py lines 198-204). -/
def download_code (filename : String) : DlResult :=
  let safe := _safe_filename filename
  if safe = "" then DlResult.reject400 else DlResult.serveFrom CODE_DIR safe true

/-- GET /download/image/(filename) (src/app.py lines 207-213). -/
def download_image (filename : String) : DlResult :=
  let safe := _safe_filename filename
  if safe = "" then DlResult.reject400 else DlResult.serveFrom IMAGE_DIR safe true

/-- The event is an invocation of the audio-synthesis adapter. -/
def isGenAudioEv : Event → Bool
  | Event.evGenAudio _ _ _ => true
  | _ => false

/-- The event is an invocation of the image-synthesis adapter. -/
def isGenImagesEv : Event → Bool
  | Event.evGenImages _ _ _ _ => true
  | _ => false

/-- Permitted effect traces of the audio handler: nothing, the script call
alone, or script call then audio synthesis (on the same topic) then the
cleanup sweep of the audio directory, in that order. -/
def audioTraceOrdered (tr : List Event) : Bool :=
  match tr with
  | [] => true
  | [Event.evGenScript _ _] => true
  | [Event.evGenScript t _, Event.evGenAudio _ t' d, Event.evCleanup d'] =>
    t == t' && d == AUDIO_DIR && d' == AUDIO_DIR
  | _ => false

example : _safe_filename "../foo" = "foo" := by decide

example : _safe_filename ".." = "" := by decide

example : _safe_filename "a.mp3" = "a.mp3" := by decide

example : _safe_filename "/etc/passwd" = "etc_passwd" := by decide

/-! ## Lemmas about the sanitizer pipeline -/

theorem mem_of_mem_dropWhile {p : Char → Bool} {c : Char} :
    ∀ {l : List Char}, c ∈ l.dropWhile p → c ∈ l := by
  intro l
  induction l with
  | nil => intro h; exact h
  | cons a t ih =>
    intro h
    by_cases hp : p a
    · rw [List.dropWhile_cons_of_pos hp] at h
      exact List.mem_cons_of_mem a (ih h)
    · rwa [List.dropWhile_cons_of_neg hp] at h

theorem head?_dropWhile_false {p : Char → Bool} {c : Char} :
    ∀ {l : List Char}, (l.dropWhile p).head? = some c → p c = false := by
  intro l
  induction l with
  | nil => intro h; simp at h
  | cons a t ih =>
    intro h
    by_cases hp : p a
    · rw [List.dropWhile_cons_of_pos hp] at h
      exact ih h
    · rw [List.dropWhile_cons_of_neg hp] at h
      simp at h
      rw [← h]
      exact Bool.of_not_eq_true hp

theorem dropWhile_eq_self_of_head {p : Char → Bool} {l : List Char}
    (h : ∀ c, l.head? = some c → p c = false) : l.dropWhile p = l := by
  cases l with
  | nil => rfl
  | cons a t =>
    have := h a rfl
    exact List.dropWhile_cons_of_neg (by simp [this])

theorem mem_of_mem_stripEnds {bad : Char → Bool} {c : Char} {s : List Char}
    (h : c ∈ stripEnds bad s) : c ∈ s := by
  unfold stripEnds rstrip lstrip at h
  rw [List.mem_reverse] at h
  have h1 := mem_of_mem_dropWhile h
  rw [List.mem_reverse] at h1
  exact mem_of_mem_dropWhile h1

theorem stripEnds_getLast?_false {bad : Char → Bool} {c : Char} {s : List Char}
    (h : (stripEnds bad s).getLast? = some c) : bad c = false := by
  unfold stripEnds rstrip at h
  rw [← List.head?_reverse, List.reverse_reverse] at h
  exact head?_dropWhile_false h

theorem rstrip_append (bad : Char → Bool) (s : List Char) :
    rstrip bad s ++ (s.reverse.takeWhile bad).reverse = s := by
  unfold rstrip
  rw [← List.reverse_append, List.takeWhile_append_dropWhile, List.reverse_reverse]

theorem stripEnds_head?_false {bad : Char → Bool} {c : Char} {s : List Char}
    (h : (stripEnds bad s).head? = some c) : bad c = false := by
  unfold stripEnds at h
  have happ := rstrip_append bad (lstrip bad s)
  have hh : (lstrip bad s).head? = some c := by
    rw [← happ, List.head?_append, h]
    rfl
  exact head?_dropWhile_false hh

theorem filter_all_true (p : Char → Bool) (l : List Char) : (l.filter p).all p = true := by
  rw [List.all_eq_true]
  intro a ha
  exact (List.mem_filter.mp ha).2

theorem secure_filename_all_kept (s : List Char) :
    (secure_filename s).all regexKept = true := by
  rw [List.all_eq_true]
  intro c hc
  unfold secure_filename at hc
  have := mem_of_mem_stripEnds hc
  exact (List.mem_filter.mp this).2

theorem secure_filename_head?_ok {s : List Char} {c : Char}
    (h : (secure_filename s).head? = some c) : stripChar c = false := by
  unfold secure_filename at h
  exact stripEnds_head?_false h

theorem secure_filename_getLast?_ok {s : List Char} {c : Char}
    (h : (secure_filename s).getLast? = some c) : stripChar c = false := by
  unfold secure_filename at h
  exact stripEnds_getLast?_false h

/-! Character-class facts, decided over the finite literal lists. -/

theorem stripReChars_ascii : stripReChars.all (fun c => decide (c.toNat < 128)) = true := by decide

theorem stripReChars_no_slash : stripReChars.all (fun c => !(c == '/')) = true := by decide

theorem stripReChars_no_space : stripReChars.all (fun c => !(isPySpace c)) = true := by decide

theorem stripReChars_subset_allowed :
    stripReChars.all (fun c => allowed_chars.contains c) = true := by decide

theorem allowed_subset_stripReChars : allowed_chars.all regexKept = true := by decide

theorem contains_prop {c : Char} {l : List Char} (h : l.contains c = true)
    {q : Char → Bool} (hall : l.all q = true) : q c = true := by
  rw [List.contains_eq_any_beq] at h
  rw [List.any_eq_true] at h
  obtain ⟨a, ha, hbeq⟩ := h
  rw [beq_iff_eq] at hbeq
  rw [hbeq]
  exact List.all_eq_true.mp hall a ha

theorem kept_prop {c : Char} (h : regexKept c = true) {q : Char → Bool}
    (hall : stripReChars.all q = true) : q c = true :=
  contains_prop h hall

/-! Fixpoint: secure_filename leaves a string fixed when every character is in
the kept class and neither end is a dot or an underscore. -/

theorem pySplitAux_all_false {p : Char → Bool} :
    ∀ (l acc : List Char), (∀ c ∈ l, p c = false) →
      pySplitAux p l acc = if (acc.reverse ++ l).isEmpty then [] else [acc.reverse ++ l] := by
  intro l
  induction l with
  | nil =>
    intro acc _
    simp [pySplitAux, List.isEmpty_iff]
  | cons a t ih =>
    intro acc h
    have ha : p a = false := h a (List.mem_cons_self a t)
    have ht : ∀ c ∈ t, p c = false := fun c hc => h c (List.mem_cons_of_mem a hc)
    simp only [pySplitAux, ha]
    rw [if_neg (by simp), ih (a :: acc) ht]
    simp

theorem pySplit_all_false {p : Char → Bool} {l : List Char}
    (h : ∀ c ∈ l, p c = false) (hne : l ≠ []) : pySplit p l = [l] := by
  unfold pySplit
  rw [pySplitAux_all_false l [] h]
  simp [List.isEmpty_iff, hne]

theorem map_eq_self_of_mem {f : Char → Char} :
    ∀ {l : List Char}, (∀ c ∈ l, f c = c) → l.map f = l := by
  intro l
  induction l with
  | nil => intro _; rfl
  | cons a t ih =>
    intro h
    simp only [List.map_cons]
    rw [h a (List.mem_cons_self a t), ih (fun c hc => h c (List.mem_cons_of_mem a hc))]

theorem secure_filename_fixpoint {l : List Char}
    (hall : l.all regexKept = true)
    (hh : ∀ c, l.head? = some c → stripChar c = false)
    (hl : ∀ c, l.getLast? = some c → stripChar c = false) :
    secure_filename l = l := by
  have hmem : ∀ c ∈ l, regexKept c = true := List.all_eq_true.mp hall
  unfold secure_filename
  have hascii : asciiOnly l = l := by
    unfold asciiOnly
    exact List.filter_eq_self.mpr (fun c hc => kept_prop (hmem c hc) stripReChars_ascii)
  rw [hascii]
  have hsep : sepToSpace l = l := by
    unfold sepToSpace
    apply map_eq_self_of_mem
    intro c hc
    have : (!(c == '/')) = true := kept_prop (hmem c hc) stripReChars_no_slash
    simp only [Bool.not_eq_true'] at this
    simp [this]
  rw [hsep]
  cases l with
  | nil => rfl
  | cons a t =>
    have hsplit : pySplit isPySpace (a :: t) = [a :: t] := by
      apply pySplit_all_false
      · intro c hc
        have : (!(isPySpace c)) = true := kept_prop (hmem c hc) stripReChars_no_space
        simpa using this
      · simp
    rw [hsplit]
    show stripEnds stripChar ((a :: t).filter regexKept) = a :: t
    rw [List.filter_eq_self.mpr hmem]
    unfold stripEnds
    have hlst : lstrip stripChar (a :: t) = a :: t :=
      dropWhile_eq_self_of_head hh
    rw [hlst]
    unfold rstrip
    have hrev : (a :: t).reverse.dropWhile stripChar = (a :: t).reverse := by
      apply dropWhile_eq_self_of_head
      intro c hc
      rw [List.head?_reverse] at hc
      exact hl c hc
    rw [hrev, List.reverse_reverse]

theorem secure_filename_allowcheck (s : List Char) :
    (secure_filename s).all (fun c => allowed_chars.contains c) = true := by
  rw [List.all_eq_true]
  intro c hc
  have h1 : regexKept c = true :=
    List.all_eq_true.mp (secure_filename_all_kept s) c hc
  exact kept_prop h1 stripReChars_subset_allowed

theorem safeFilenameChars_eq_secure (s : List Char) :
    safeFilenameChars s = secure_filename s := by
  unfold safeFilenameChars
  rw [if_pos (secure_filename_allowcheck s)]

theorem secure_filename_idem (s : List Char) :
    secure_filename (secure_filename s) = secure_filename s := by
  apply secure_filename_fixpoint
  · exact secure_filename_all_kept s
  · intro c hc; exact secure_filename_head?_ok hc
  · intro c hc; exact secure_filename_getLast?_ok hc


/-- C1 counterexample: the input contains a dot-dot-slash prefix and a
separator character, yet the sanitizer returns a nonempty string rather than
the empty string. -/
theorem c1_counterexample :
    List.isPrefixOf "../".data "../foo".data = true ∧
      "../foo".data.any (fun c => c == '/') = true ∧
      _safe_filename "../foo" = "foo" := by
  refine ⟨by decide, by decide, by decide⟩

/-- C1 (amended): the sanitizer does not map every traversal-shaped input to
the empty string, but its output is always safe: for every input the result
is either empty or a single safe path component (no separators, not dot or
dot-dot, nonempty), so joining a nonempty result with the fixed base
directory always resolves inside that directory. -/
theorem c1_sanitizer_output_safe (s : String) :
    _safe_filename s = "" ∨ singleSafeComponent (_safe_filename s) = true := by
  unfold _safe_filename
  rw [safeFilenameChars_eq_secure]
  by_cases h : secure_filename s.data = []
  · left
    rw [h]
  · right
    unfold singleSafeComponent
    have hmem : ∀ c ∈ secure_filename s.data, regexKept c = true :=
      List.all_eq_true.mp (secure_filename_all_kept s.data)
    have hslash : (secure_filename s.data).any (fun c => c == '/') = false := by
      rw [List.any_eq_false]
      intro c hc
      have := kept_prop (hmem c hc) stripReChars_no_slash
      simpa using this
    have hdot : secure_filename s.data ≠ ['.'] := by
      intro heq
      have hh : (secure_filename s.data).head? = some '.' := by rw [heq]; rfl
      have := secure_filename_head?_ok hh
      simp [stripChar] at this
    have hdotdot : secure_filename s.data ≠ ['.', '.'] := by
      intro heq
      have hh : (secure_filename s.data).head? = some '.' := by rw [heq]; rfl
      have := secure_filename_head?_ok hh
      simp [stripChar] at this
    simp only [Bool.and_eq_true, Bool.not_eq_true', decide_eq_true_eq]
    exact ⟨⟨⟨hslash, hdot⟩, hdotdot⟩, h⟩

theorem goodEnds_head {s : String} (h : goodEnds s = true) :
    ∀ c, s.data.head? = some c → stripChar c = false := by
  intro c hc
  unfold goodEnds at h
  rw [Bool.and_eq_true] at h
  have h1 := h.1
  rw [hc] at h1
  simpa using h1

theorem goodEnds_getLast {s : String} (h : goodEnds s = true) :
    ∀ c, s.data.getLast? = some c → stripChar c = false := by
  intro c hc
  unfold goodEnds at h
  rw [Bool.and_eq_true] at h
  have h2 := h.2
  rw [hc] at h2
  simpa using h2

/-- C6 counterexample: the string dot-dot consists solely of allow-list
characters, yet the sanitizer does not return it unchanged: it returns the
empty string. -/
theorem c6_counterexample :
    "..".data.all (fun c => allowed_chars.contains c) = true ∧
      _safe_filename ".." = "" ∧ _safe_filename ".." ≠ ".." := by
  refine ⟨by decide, by decide, by decide⟩

/-- C6 (amended): the sanitizer is idempotent on every input; and it returns
unchanged every string of allow-list characters whose two ends are not a dot
or an underscore (the final strip step removes leading and trailing dots and
underscores, so strings such as dot-dot are not fixed points). -/
theorem c6_sanitizer_idempotent :
    (∀ s : String, s.data.all (fun c => allowed_chars.contains c) = true →
      goodEnds s = true → _safe_filename s = s) ∧
    (∀ s : String, _safe_filename (_safe_filename s) = _safe_filename s) := by
  constructor
  · intro s hall hends
    unfold _safe_filename
    rw [safeFilenameChars_eq_secure]
    have hkept : s.data.all regexKept = true := by
      rw [List.all_eq_true]
      intro c hc
      exact contains_prop (List.all_eq_true.mp hall c hc) allowed_subset_stripReChars
    rw [secure_filename_fixpoint hkept (goodEnds_head hends) (goodEnds_getLast hends)]
  · intro s
    unfold _safe_filename
    rw [safeFilenameChars_eq_secure, safeFilenameChars_eq_secure]
    show String.mk (secure_filename (secure_filename s.data)) = String.mk (secure_filename s.data)
    rw [secure_filename_idem]

/-- C6 witness: the amended theorem applied at concrete inputs. -/
theorem c6_witness :
    _safe_filename "foo.py" = "foo.py" ∧
      _safe_filename (_safe_filename "a b") = _safe_filename "a b" :=
  ⟨c6_sanitizer_idempotent.1 "foo.py" (by decide) (by decide),
   c6_sanitizer_idempotent.2 "a b"⟩

/-! ## Dictionary lemmas -/

theorem dget_dset_self (d : Dict) (k : String) (v : JVal) :
    dget (dset d k v) k = some v := by
  induction d with
  | nil => simp [dset, dget]
  | cons e rest ih =>
    by_cases h : e.1 = k
    · simp [dset, dget, h]
    · simp only [dset, dget]
      rw [if_neg h]
      simp only [dget]
      rw [if_neg h]
      exact ih

theorem dget_dset_ne (d : Dict) (k' k : String) (v : JVal) (h : ¬ k' = k) :
    dget (dset d k' v) k = dget d k := by
  induction d with
  | nil => simp [dset, dget, h]
  | cons e rest ih =>
    by_cases he : e.1 = k'
    · simp only [dset]
      rw [if_pos he]
      simp only [dget]
      rw [if_neg h, if_neg (by rw [he]; exact h)]
    · simp only [dset]
      rw [if_neg he]
      simp only [dget]
      by_cases hek : e.1 = k
      · rw [if_pos hek, if_pos hek]
      · rw [if_neg hek, if_neg hek]
        exact ih

theorem fsHas_fsWrite (fs : FS) (name content : String) :
    fsHas (fsWrite fs name content) name = true := by
  simp [fsHas, fsWrite]

/-! ## C3: blank or missing primary field is rejected before any adapter call -/

/-- C3: for each of the four generation handlers, when the primary subject
field is absent (default empty) or whitespace-only after stripping, the
handler returns HTTP 400 with the uniform error envelope and an empty effect
trace: no adapter is invoked. -/
theorem c3_blank_subject_rejected
    (gt : String → JVal → Dict)
    (gc : String → JVal → Dict) (dn : String → String) (sc : String → Bool)
    (lc : String → Int) (ci li : JVal → JVal → String) (fs : FS)
    (gs : String → JVal → Dict) (ga : JVal → String → String → Dict)
    (gp : String → Dict) (gi : JVal → String → JVal → String → Dict)
    (body : Option Dict) :
    (∀ raw, pyGetStr (jsonOrEmpty body) "topic" "" = some raw → pyStrip raw = "" →
      api_generate_text gt body = some (⟨400, errEnvelope "Topic is required"⟩, []) ∧
      api_generate_audio gs ga body = some (⟨400, errEnvelope "Topic is required"⟩, [])) ∧
    (∀ raw, pyGetStr (jsonOrEmpty body) "algorithm" "" = some raw → pyStrip raw = "" →
      api_generate_code gc dn sc lc ci li body fs =
        some (⟨400, errEnvelope "Algorithm name is required"⟩, fs, [])) ∧
    (∀ raw, pyGetStr (jsonOrEmpty body) "concept" "" = some raw → pyStrip raw = "" →
      api_generate_image gp gi body = some (⟨400, errEnvelope "Concept is required"⟩, [])) := by
  refine ⟨fun raw hget hblank => ⟨?_, ?_⟩, fun raw hget hblank => ?_, fun raw hget hblank => ?_⟩
  · simp [api_generate_text, hget, hblank]
  · simp [api_generate_audio, hget, hblank]
  · simp [api_generate_code, hget, hblank]
  · simp [api_generate_image, hget, hblank]

/-- C3 witness: a body whose topic is a single space and which lacks the
algorithm and concept fields is rejected by all four handlers with 400 and an
empty trace. -/
theorem c3_witness :
    api_generate_text (fun _ _ => []) (some [("topic", JVal.jstr " ")]) =
        some (⟨400, errEnvelope "Topic is required"⟩, []) ∧
      api_generate_audio (fun _ _ => []) (fun _ _ _ => []) (some [("topic", JVal.jstr " ")]) =
        some (⟨400, errEnvelope "Topic is required"⟩, []) ∧
      api_generate_code (fun _ _ => []) (fun a => a) (fun _ => true) (fun _ => 0)
          (fun _ _ => "") (fun _ _ => "") (some [("topic", JVal.jstr " ")]) [] =
        some (⟨400, errEnvelope "Algorithm name is required"⟩, [], []) ∧
      api_generate_image (fun _ => []) (fun _ _ _ _ => []) (some [("topic", JVal.jstr " ")]) =
        some (⟨400, errEnvelope "Concept is required"⟩, []) := by
  obtain ⟨h12, h3, h4⟩ := c3_blank_subject_rejected
    (fun _ _ => []) (fun _ _ => []) (fun a => a) (fun _ => true) (fun _ => 0)
    (fun _ _ => "") (fun _ _ => "") ([] : FS) (fun _ _ => []) (fun _ _ _ => [])
    (fun _ => []) (fun _ _ _ _ => []) (some [("topic", JVal.jstr " ")])
  obtain ⟨h1, h2⟩ := h12 " " (by decide) (by decide)
  exact ⟨h1, h2, h3 "" (by decide) (by decide), h4 "" (by decide) (by decide)⟩

/-! ## C9: absent or unparseable body behaves as the empty object -/

/-- C9: for every handler, an absent or unparseable request body is treated
exactly as the empty JSON object; in particular the request flows into the
ordinary validation path and is rejected with HTTP 400 for the missing
primary field, with no adapter invoked. -/
theorem c9_missing_body_as_empty
    (gt : String → JVal → Dict)
    (gc : String → JVal → Dict) (dn : String → String) (sc : String → Bool)
    (lc : String → Int) (ci li : JVal → JVal → String) (fs : FS)
    (gs : String → JVal → Dict) (ga : JVal → String → String → Dict)
    (gp : String → Dict) (gi : JVal → String → JVal → String → Dict) :
    (api_generate_text gt none = api_generate_text gt (some []) ∧
      api_generate_text gt none = some (⟨400, errEnvelope "Topic is required"⟩, [])) ∧
    (api_generate_audio gs ga none = api_generate_audio gs ga (some []) ∧
      api_generate_audio gs ga none = some (⟨400, errEnvelope "Topic is required"⟩, [])) ∧
    (api_generate_code gc dn sc lc ci li none fs = api_generate_code gc dn sc lc ci li (some []) fs ∧
      api_generate_code gc dn sc lc ci li none fs =
        some (⟨400, errEnvelope "Algorithm name is required"⟩, fs, [])) ∧
    (api_generate_image gp gi none = api_generate_image gp gi (some []) ∧
      api_generate_image gp gi none = some (⟨400, errEnvelope "Concept is required"⟩, [])) := by
  refine ⟨⟨rfl, rfl⟩, ⟨rfl, rfl⟩, ⟨rfl, rfl⟩, ⟨rfl, rfl⟩⟩

/-! ## C4: first-step failure short-circuits the second step -/

/-- C4: when the script-generation step of the audio handler returns a
non-success status, the handler responds with that result and HTTP 500 and
the audio-synthesis adapter is never invoked (the trace holds only the script
call); likewise for the image handler and its prompt-generation step. -/
theorem c4_first_step_failure_short_circuits
    (gs : String → JVal → Dict) (ga : JVal → String → String → Dict)
    (gp : String → Dict) (gi : JVal → String → JVal → String → Dict)
    (body : Option Dict) :
    (∀ raw len, pyGetStr (jsonOrEmpty body) "topic" "" = some raw →
      pyStrip raw ≠ "" →
      len = dgetD (jsonOrEmpty body) "length" (JVal.jstr "Medium") →
      dget (gs (pyStrip raw) len) "status" ≠ some (JVal.jstr "success") →
      api_generate_audio gs ga body =
          some (⟨500, gs (pyStrip raw) len⟩, [Event.evGenScript (pyStrip raw) len]) ∧
        ∀ e ∈ [Event.evGenScript (pyStrip raw) len], isGenAudioEv e = false) ∧
    (∀ raw, pyGetStr (jsonOrEmpty body) "concept" "" = some raw →
      pyStrip raw ≠ "" →
      dget (gp (pyStrip raw)) "status" ≠ some (JVal.jstr "success") →
      api_generate_image gp gi body =
          some (⟨500, gp (pyStrip raw)⟩, [Event.evGenPrompts (pyStrip raw)]) ∧
        ∀ e ∈ [Event.evGenPrompts (pyStrip raw)], isGenImagesEv e = false) := by
  constructor
  · intro raw len hget hne hlen hfail
    subst hlen
    constructor
    · simp [api_generate_audio, hget, hne, hfail]
    · intro e he
      simp only [List.mem_singleton] at he
      rw [he]
      rfl
  · intro raw hget hne hfail
    constructor
    · simp [api_generate_image, hget, hne, hfail]
    · intro e he
      simp only [List.mem_singleton] at he
      rw [he]
      rfl

/-- C4 witness: concrete failing first steps for the audio and the image
handler, settled by the theorem itself. -/
theorem c4_witness :
    api_generate_audio (fun _ _ => [("status", JVal.jstr "error")]) (fun _ _ _ => [])
        (some [("topic", JVal.jstr "nn")]) =
      some (⟨500, [("status", JVal.jstr "error")]⟩, [Event.evGenScript "nn" (JVal.jstr "Medium")]) ∧
    api_generate_image (fun _ => [("status", JVal.jstr "error")]) (fun _ _ _ _ => [])
        (some [("concept", JVal.jstr "cc")]) =
      some (⟨500, [("status", JVal.jstr "error")]⟩, [Event.evGenPrompts "cc"]) := by
  obtain ⟨h1, h2⟩ := c4_first_step_failure_short_circuits
    (fun _ _ => [("status", JVal.jstr "error")]) (fun _ _ _ => [])
    (fun _ => [("status", JVal.jstr "error")]) (fun _ _ _ _ => [])
    (some [("topic", JVal.jstr "nn")])
  obtain ⟨h3, h4⟩ := c4_first_step_failure_short_circuits
    (fun _ _ => [("status", JVal.jstr "error")]) (fun _ _ _ => [])
    (fun _ => [("status", JVal.jstr "error")]) (fun _ _ _ _ => [])
    (some [("concept", JVal.jstr "cc")])
  exact ⟨(h1 "nn" (JVal.jstr "Medium") (by decide) (by decide) (by decide) (by decide)).1,
         (h4 "cc" (by decide) (by decide) (by decide)).1⟩

/-! ## C2: status codes carried by error envelopes -/

/-- C2 counterexample: the script step succeeds and the audio-synthesis step
reports failure; the handler returns the failing envelope (status error with
its message) with HTTP status 200, not 500, contradicting the claim that an
adapter failure at any step is delivered with a 500 status and that every
error envelope uses an HTTP status in the set containing 400 and 500. -/
theorem c2_counterexample :
    api_generate_audio
        (fun _ _ => [("status", JVal.jstr "success"), ("script", JVal.jstr "s")])
        (fun _ _ _ => [("status", JVal.jstr "error"), ("message", JVal.jstr "boom")])
        (some [("topic", JVal.jstr "x")]) =
      some (⟨200, [("status", JVal.jstr "error"), ("message", JVal.jstr "boom"),
                   ("script", JVal.jstr "s"), ("topic", JVal.jstr "x")]⟩,
        [Event.evGenScript "x" (JVal.jstr "Medium"),
         Event.evGenAudio (JVal.jstr "s") "x" AUDIO_DIR,
         Event.evCleanup AUDIO_DIR]) := by
  decide

/-- C2 (amended): validation failures are delivered with HTTP 400 and a
message; a first-step adapter failure of a multi-step handler is delivered
with the envelope of that step and HTTP 500; but the result of the final adapter
step (audio synthesis, image synthesis) is delivered with HTTP 200 whatever
its status field says, its status and message fields passed through
unchanged - so error envelopes from the second step do not use a status in
the set containing 400 and 500. -/
theorem c2_error_status_codes
    (gs : String → JVal → Dict) (ga : JVal → String → String → Dict)
    (gp : String → Dict) (gi : JVal → String → JVal → String → Dict)
    (body : Option Dict) :
    (∀ raw, pyGetStr (jsonOrEmpty body) "topic" "" = some raw → pyStrip raw = "" →
      api_generate_audio gs ga body = some (⟨400, errEnvelope "Topic is required"⟩, [])) ∧
    (∀ raw len, pyGetStr (jsonOrEmpty body) "topic" "" = some raw → pyStrip raw ≠ "" →
      len = dgetD (jsonOrEmpty body) "length" (JVal.jstr "Medium") →
      dget (gs (pyStrip raw) len) "status" ≠ some (JVal.jstr "success") →
      api_generate_audio gs ga body =
        some (⟨500, gs (pyStrip raw) len⟩, [Event.evGenScript (pyStrip raw) len])) ∧
    (∀ raw len, pyGetStr (jsonOrEmpty body) "topic" "" = some raw → pyStrip raw ≠ "" →
      len = dgetD (jsonOrEmpty body) "length" (JVal.jstr "Medium") →
      dget (gs (pyStrip raw) len) "status" = some (JVal.jstr "success") →
      ∀ r tr, api_generate_audio gs ga body = some (r, tr) →
        r.status = 200 ∧
        dget r.body "status" =
          dget (ga (dgetD (gs (pyStrip raw) len) "script" (JVal.jstr ""))
            (pyStrip raw) AUDIO_DIR) "status" ∧
        dget r.body "message" =
          dget (ga (dgetD (gs (pyStrip raw) len) "script" (JVal.jstr ""))
            (pyStrip raw) AUDIO_DIR) "message") ∧
    (∀ raw, pyGetStr (jsonOrEmpty body) "concept" "" = some raw → pyStrip raw ≠ "" →
      dget (gp (pyStrip raw)) "status" ≠ some (JVal.jstr "success") →
      api_generate_image gp gi body =
        some (⟨500, gp (pyStrip raw)⟩, [Event.evGenPrompts (pyStrip raw)])) ∧
    (∀ raw bk, pyGetStr (jsonOrEmpty body) "concept" "" = some raw → pyStrip raw ≠ "" →
      bk = dgetD (jsonOrEmpty body) "backend" (JVal.jstr "gemini") →
      dget (gp (pyStrip raw)) "status" = some (JVal.jstr "success") →
      ∀ r tr, api_generate_image gp gi body = some (r, tr) →
        r.status = 200 ∧
        dget r.body "status" =
          dget (gi (dgetD (gp (pyStrip raw)) "prompts" (JVal.jarr []))
            (pyStrip raw) bk IMAGE_DIR) "status" ∧
        dget r.body "message" =
          dget (gi (dgetD (gp (pyStrip raw)) "prompts" (JVal.jarr []))
            (pyStrip raw) bk IMAGE_DIR) "message") := by
  refine ⟨fun raw hget hblank => ?_,
          fun raw len hget hne hlen hfail => ?_,
          fun raw len hget hne hlen hsucc r tr h => ?_,
          fun raw hget hne hfail => ?_,
          fun raw bk hget hne hbk hsucc r tr h => ?_⟩
  · simp [api_generate_audio, hget, hblank]
  · subst hlen
    simp [api_generate_audio, hget, hne, hfail]
  · subst hlen
    simp only [api_generate_audio] at h
    rw [hget] at h
    simp only [] at h
    rw [if_neg hne, if_pos hsucc] at h
    simp only [Option.some.injEq, Prod.mk.injEq] at h
    obtain ⟨h1, h2⟩ := h
    rw [← h1]
    refine ⟨rfl, ?_, ?_⟩
    · show dget (dset (dset _ "script" _) "topic" _) "status" = _
      rw [dget_dset_ne _ _ _ _ (by decide), dget_dset_ne _ _ _ _ (by decide)]
    · show dget (dset (dset _ "script" _) "topic" _) "message" = _
      rw [dget_dset_ne _ _ _ _ (by decide), dget_dset_ne _ _ _ _ (by decide)]
  · simp [api_generate_image, hget, hne, hfail]
  · subst hbk
    simp only [api_generate_image] at h
    rw [hget] at h
    simp only [] at h
    rw [if_neg hne, if_pos hsucc] at h
    simp only [Option.some.injEq, Prod.mk.injEq] at h
    obtain ⟨h1, h2⟩ := h
    rw [← h1]
    refine ⟨rfl, ?_, ?_⟩
    · show dget (dset (dset _ "prompts" _) "concept" _) "status" = _
      rw [dget_dset_ne _ _ _ _ (by decide), dget_dset_ne _ _ _ _ (by decide)]
    · show dget (dset (dset _ "prompts" _) "concept" _) "message" = _
      rw [dget_dset_ne _ _ _ _ (by decide), dget_dset_ne _ _ _ _ (by decide)]

/-- C2 witness: the amended theorem applied at a failing audio-synthesis
step: the error envelope of the second step is delivered with HTTP 200 and
its status and message fields are passed through. -/
theorem c2_witness :
    (⟨200, [("status", JVal.jstr "error"), ("message", JVal.jstr "boom"),
            ("script", JVal.jstr "s"), ("topic", JVal.jstr "x")]⟩ : HttpResponse).status = 200 ∧
      dget ([("status", JVal.jstr "error"), ("message", JVal.jstr "boom"),
             ("script", JVal.jstr "s"), ("topic", JVal.jstr "x")] : Dict) "status" =
        some (JVal.jstr "error") ∧
      dget ([("status", JVal.jstr "error"), ("message", JVal.jstr "boom"),
             ("script", JVal.jstr "s"), ("topic", JVal.jstr "x")] : Dict) "message" =
        some (JVal.jstr "boom") := by
  have h := (c2_error_status_codes
      (fun _ _ => [("status", JVal.jstr "success"), ("script", JVal.jstr "s")])
      (fun _ _ _ => [("status", JVal.jstr "error"), ("message", JVal.jstr "boom")])
      (fun _ => []) (fun _ _ _ _ => [])
      (some [("topic", JVal.jstr "x")])).2.2.1 "x" (JVal.jstr "Medium")
      (by decide) (by decide) (by decide) (by decide)
      ⟨200, [("status", JVal.jstr "error"), ("message", JVal.jstr "boom"),
             ("script", JVal.jstr "s"), ("topic", JVal.jstr "x")]⟩
      [Event.evGenScript "x" (JVal.jstr "Medium"),
       Event.evGenAudio (JVal.jstr "s") "x" AUDIO_DIR,
       Event.evCleanup AUDIO_DIR] (by decide)
  exact h

/-! ## C8: strict step ordering inside one audio request -/

/-- C8: whatever the adapters and the request body, the effect trace of one
audio request is one of: empty (validation failure), the script call alone
(script step failed), or the script call followed by the audio-synthesis
call on the same topic followed by the cleanup sweep of the audio directory.
The trace lists effects in execution order, so the script call always
precedes the synthesis call and the cleanup sweep runs only after the
synthesis call (and the write it performs) has completed. -/
theorem c8_audio_step_ordering
    (gs : String → JVal → Dict) (ga : JVal → String → String → Dict)
    (body : Option Dict) :
    ∀ r tr, api_generate_audio gs ga body = some (r, tr) →
      audioTraceOrdered tr = true := by
  intro r tr h
  simp only [api_generate_audio] at h
  cases hp : pyGetStr (jsonOrEmpty body) "topic" "" with
  | none => rw [hp] at h; simp at h
  | some raw =>
    rw [hp] at h
    simp only [] at h
    by_cases ht : pyStrip raw = ""
    · rw [if_pos ht] at h
      simp only [Option.some.injEq, Prod.mk.injEq] at h
      rw [← h.2]
      rfl
    · rw [if_neg ht] at h
      by_cases hs : dget (gs (pyStrip raw) (dgetD (jsonOrEmpty body) "length" (JVal.jstr "Medium")))
          "status" = some (JVal.jstr "success")
      · rw [if_pos hs] at h
        simp only [Option.some.injEq, Prod.mk.injEq] at h
        rw [← h.2]
        simp [audioTraceOrdered]
      · rw [if_neg hs] at h
        simp only [Option.some.injEq, Prod.mk.injEq] at h
        rw [← h.2]
        rfl

/-- C8 witness: the theorem applied to a concrete request that reaches the
synthesis step, whose trace is the full ordered triple. -/
theorem c8_witness :
    audioTraceOrdered
      [Event.evGenScript "x" (JVal.jstr "Medium"),
       Event.evGenAudio (JVal.jstr "sc") "x" AUDIO_DIR,
       Event.evCleanup AUDIO_DIR] = true :=
  c8_audio_step_ordering
    (fun _ _ => [("status", JVal.jstr "success"), ("script", JVal.jstr "sc")])
    (fun _ _ _ => []) (some [("topic", JVal.jstr "x")])
    ⟨200, [("script", JVal.jstr "sc"), ("topic", JVal.jstr "x")]⟩
    [Event.evGenScript "x" (JVal.jstr "Medium"),
     Event.evGenAudio (JVal.jstr "sc") "x" AUDIO_DIR,
     Event.evCleanup AUDIO_DIR] (by decide)

/-! ## C10: the handler unconditionally overwrites the attachment keys -/

/-- C10: once the first step succeeds, the audio handler sets the script and
topic keys on whatever dictionary the audio-synthesis adapter returned -
overwriting same-named keys and irrespective of the status of that result - and
the image handler does the same with the prompts and concept keys. -/
theorem c10_attachment_keys_overwritten
    (gs : String → JVal → Dict) (ga : JVal → String → String → Dict)
    (gp : String → Dict) (gi : JVal → String → JVal → String → Dict)
    (body : Option Dict) :
    (∀ raw len, pyGetStr (jsonOrEmpty body) "topic" "" = some raw → pyStrip raw ≠ "" →
      len = dgetD (jsonOrEmpty body) "length" (JVal.jstr "Medium") →
      dget (gs (pyStrip raw) len) "status" = some (JVal.jstr "success") →
      ∀ r tr, api_generate_audio gs ga body = some (r, tr) →
        dget r.body "script" = some (dgetD (gs (pyStrip raw) len) "script" (JVal.jstr "")) ∧
        dget r.body "topic" = some (JVal.jstr (pyStrip raw))) ∧
    (∀ raw bk, pyGetStr (jsonOrEmpty body) "concept" "" = some raw → pyStrip raw ≠ "" →
      bk = dgetD (jsonOrEmpty body) "backend" (JVal.jstr "gemini") →
      dget (gp (pyStrip raw)) "status" = some (JVal.jstr "success") →
      ∀ r tr, api_generate_image gp gi body = some (r, tr) →
        dget r.body "prompts" = some (dgetD (gp (pyStrip raw)) "prompts" (JVal.jarr [])) ∧
        dget r.body "concept" = some (JVal.jstr (pyStrip raw))) := by
  constructor
  · intro raw len hget hne hlen hsucc r tr h
    subst hlen
    simp only [api_generate_audio] at h
    rw [hget] at h
    simp only [] at h
    rw [if_neg hne, if_pos hsucc] at h
    simp only [Option.some.injEq, Prod.mk.injEq] at h
    rw [← h.1]
    constructor
    · show dget (dset (dset _ "script" _) "topic" _) "script" = _
      rw [dget_dset_ne _ _ _ _ (by decide), dget_dset_self]
    · show dget (dset (dset _ "script" _) "topic" _) "topic" = _
      rw [dget_dset_self]
  · intro raw bk hget hne hbk hsucc r tr h
    subst hbk
    simp only [api_generate_image] at h
    rw [hget] at h
    simp only [] at h
    rw [if_neg hne, if_pos hsucc] at h
    simp only [Option.some.injEq, Prod.mk.injEq] at h
    rw [← h.1]
    constructor
    · show dget (dset (dset _ "prompts" _) "concept" _) "prompts" = _
      rw [dget_dset_ne _ _ _ _ (by decide), dget_dset_self]
    · show dget (dset (dset _ "prompts" _) "concept" _) "concept" = _
      rw [dget_dset_self]

/-- C10 witness: the synthesis adapter returns junk under the very keys the
handler attaches plus a failing status; the handler still overwrites them. -/
theorem c10_witness :
    dget ([("script", JVal.jstr "s"), ("topic", JVal.jstr "x"),
           ("status", JVal.jstr "error")] : Dict) "script" = some (JVal.jstr "s") ∧
      dget ([("script", JVal.jstr "s"), ("topic", JVal.jstr "x"),
             ("status", JVal.jstr "error")] : Dict) "topic" = some (JVal.jstr "x") := by
  have h := (c10_attachment_keys_overwritten
      (fun _ _ => [("status", JVal.jstr "success"), ("script", JVal.jstr "s")])
      (fun _ _ _ => [("script", JVal.jstr "junk"), ("topic", JVal.jstr "junk"),
                     ("status", JVal.jstr "error")])
      (fun _ => []) (fun _ _ _ _ => [])
      (some [("topic", JVal.jstr "x")])).1 "x" (JVal.jstr "Medium")
      (by decide) (by decide) (by decide) (by decide)
      ⟨200, [("script", JVal.jstr "s"), ("topic", JVal.jstr "x"),
             ("status", JVal.jstr "error")]⟩
      [Event.evGenScript "x" (JVal.jstr "Medium"),
       Event.evGenAudio (JVal.jstr "s") "x" AUDIO_DIR,
       Event.evCleanup AUDIO_DIR] (by decide)
  exact h

/-! ## C5: code handler persistence and response enrichment -/

/-- C5: when the code adapter reports success, the handler saves the code via
the artifact store and the response carries the saved filename, the
syntax-validity flag, the line count, and the two instruction blocks built
from the saved filename and the adapter-reported dependency list, and a file
of that name exists in the code directory afterwards; when the adapter
reports failure, persistence is skipped and the adapter result is returned
unchanged with the directory untouched. -/
theorem c5_code_handler_persistence
    (gc : String → JVal → Dict) (dn : String → String) (sc : String → Bool)
    (lc : String → Int) (ci li : JVal → JVal → String)
    (body : Option Dict) (fs : FS) :
    (∀ raw code cplx, pyGetStr (jsonOrEmpty body) "algorithm" "" = some raw →
      pyStrip raw ≠ "" →
      cplx = dgetD (jsonOrEmpty body) "complexity" (JVal.jstr "Detailed") →
      dget (gc (pyStrip raw) cplx) "status" = some (JVal.jstr "success") →
      pyGetStr (gc (pyStrip raw) cplx) "code" "" = some code →
      ∀ r fs' tr, api_generate_code gc dn sc lc ci li body fs = some (r, fs', tr) →
        r.status = 200 ∧
        dget r.body "filename" = some (JVal.jstr (dn (pyStrip raw))) ∧
        dget r.body "syntax_valid" = some (JVal.jbool (sc code)) ∧
        dget r.body "line_count" = some (JVal.jnum (lc code)) ∧
        dget r.body "colab_instructions" =
          some (JVal.jstr (ci (JVal.jstr (dn (pyStrip raw)))
            (dgetD (gc (pyStrip raw) cplx) "dependencies" (JVal.jarr [])))) ∧
        dget r.body "local_instructions" =
          some (JVal.jstr (li (JVal.jstr (dn (pyStrip raw)))
            (dgetD (gc (pyStrip raw) cplx) "dependencies" (JVal.jarr [])))) ∧
        fsHas fs' (dn (pyStrip raw)) = true) ∧
    (∀ raw cplx, pyGetStr (jsonOrEmpty body) "algorithm" "" = some raw →
      pyStrip raw ≠ "" →
      cplx = dgetD (jsonOrEmpty body) "complexity" (JVal.jstr "Detailed") →
      dget (gc (pyStrip raw) cplx) "status" ≠ some (JVal.jstr "success") →
      api_generate_code gc dn sc lc ci li body fs =
        some (⟨200, gc (pyStrip raw) cplx⟩, fs, [Event.evGenCode (pyStrip raw) cplx])) := by
  constructor
  · intro raw code cplx hget hne hcplx hsucc hcode r fs' tr h
    subst hcplx
    obtain ⟨rst, rbody⟩ := r
    simp only [api_generate_code] at h
    rw [hget] at h
    simp only [] at h
    rw [if_neg hne, if_pos hsucc] at h
    rw [hcode] at h
    simp only [] at h
    simp only [Option.some.injEq, Prod.mk.injEq, HttpResponse.mk.injEq] at h
    obtain ⟨⟨hs, hb⟩, h2, h3⟩ := h
    subst hs
    rw [← hb]
    refine ⟨rfl, ?_, ?_, ?_, ?_, ?_, ?_⟩
    · rw [dget_dset_ne _ _ _ _ (by decide), dget_dset_ne _ _ _ _ (by decide),
        dget_dset_ne _ _ _ _ (by decide), dget_dset_ne _ _ _ _ (by decide),
        dget_dset_self]
      rfl
    · rw [dget_dset_ne _ _ _ _ (by decide), dget_dset_ne _ _ _ _ (by decide),
        dget_dset_ne _ _ _ _ (by decide), dget_dset_self]
      rfl
    · rw [dget_dset_ne _ _ _ _ (by decide), dget_dset_ne _ _ _ _ (by decide),
        dget_dset_self]
      rfl
    · rw [dget_dset_ne _ _ _ _ (by decide), dget_dset_self]
      simp only [Option.some.injEq, JVal.jstr.injEq]
      congr 1
      · simp only [dgetD]
        rw [dget_dset_ne _ _ _ _ (by decide), dget_dset_ne _ _ _ _ (by decide),
          dget_dset_self]
        rfl
      · simp only [dgetD]
        rw [dget_dset_ne _ _ _ _ (by decide), dget_dset_ne _ _ _ _ (by decide),
          dget_dset_ne _ _ _ _ (by decide)]
    · rw [dget_dset_self]
      simp only [Option.some.injEq, JVal.jstr.injEq]
      congr 1
      · simp only [dgetD]
        rw [dget_dset_ne _ _ _ _ (by decide), dget_dset_ne _ _ _ _ (by decide),
          dget_dset_self]
        rfl
      · simp only [dgetD]
        rw [dget_dset_ne _ _ _ _ (by decide), dget_dset_ne _ _ _ _ (by decide),
          dget_dset_ne _ _ _ _ (by decide)]
    · rw [← h2]
      exact fsHas_fsWrite fs (dn (pyStrip raw)) code
  · intro raw cplx hget hne hcplx hfail
    subst hcplx
    simp [api_generate_code, hget, hne, hfail]

/-- C5 witness: the theorem applied to a concrete successful generation.  The
concrete adapter returns the code text c and a dependency list; the saved
filename is the algorithm name itself under the identity derivation. -/
theorem c5_witness :
    ∀ r fs' tr,
      api_generate_code (fun _ _ => [("status", JVal.jstr "success"), ("code", JVal.jstr "c"),
          ("dependencies", JVal.jarr ["numpy"])])
        (fun a => a) (fun _ => true) (fun _ => 1)
        (fun _ _ => "colab") (fun _ _ => "local")
        (some [("algorithm", JVal.jstr "svm")]) [] = some (r, fs', tr) →
      r.status = 200 ∧
      dget r.body "filename" = some (JVal.jstr "svm") ∧
      dget r.body "syntax_valid" = some (JVal.jbool true) ∧
      dget r.body "line_count" = some (JVal.jnum 1) ∧
      dget r.body "colab_instructions" = some (JVal.jstr "colab") ∧
      dget r.body "local_instructions" = some (JVal.jstr "local") ∧
      fsHas fs' "svm" = true := by
  intro r fs' tr h
  exact (c5_code_handler_persistence
      (fun _ _ => [("status", JVal.jstr "success"), ("code", JVal.jstr "c"),
        ("dependencies", JVal.jarr ["numpy"])])
      (fun a => a) (fun _ => true) (fun _ => 1) (fun _ _ => "colab") (fun _ _ => "local")
      (some [("algorithm", JVal.jstr "svm")]) []).1 "svm" "c" (JVal.jstr "Detailed")
    (by decide) (by decide) (by decide) (by decide) (by decide) r fs' tr h

/-! ## C7: download endpoints gated by the sanitizer -/

/-- C7: for each download endpoint, a filename rejected by the sanitizer is
answered with 400 and no filesystem access, and an accepted filename is
served as an attachment from the single fixed base directory of that
endpoint. -/
theorem c7_download_sanitization_gate (fn : String) :
    (_safe_filename fn = "" →
      download_audio fn = DlResult.reject400 ∧
      download_code fn = DlResult.reject400 ∧
      download_image fn = DlResult.reject400) ∧
    (_safe_filename fn ≠ "" →
      download_audio fn = DlResult.serveFrom AUDIO_DIR (_safe_filename fn) true ∧
      download_code fn = DlResult.serveFrom CODE_DIR (_safe_filename fn) true ∧
      download_image fn = DlResult.serveFrom IMAGE_DIR (_safe_filename fn) true) := by
  constructor
  · intro h
    refine ⟨?_, ?_, ?_⟩ <;> simp [download_audio, download_code, download_image, h]
  · intro h
    refine ⟨?_, ?_, ?_⟩ <;> simp [download_audio, download_code, download_image, h]

/-- C7 witness: a rejected and an accepted concrete filename for each
endpoint, settled by the theorem itself. -/
theorem c7_witness :
    (download_audio ".." = DlResult.reject400 ∧
      download_code ".." = DlResult.reject400 ∧
      download_image ".." = DlResult.reject400) ∧
    (download_audio "a.mp3" = DlResult.serveFrom AUDIO_DIR (_safe_filename "a.mp3") true ∧
      download_code "a.mp3" = DlResult.serveFrom CODE_DIR (_safe_filename "a.mp3") true ∧
      download_image "a.mp3" = DlResult.serveFrom IMAGE_DIR (_safe_filename "a.mp3") true) :=
  ⟨(c7_download_sanitization_gate "..").1 (by decide),
   (c7_download_sanitization_gate "a.mp3").2 (by decide)⟩
